import Mathlib

/-!
Shallow embedding of the polisense.AI landing-page repository, covering:
- the lead-capture modal `BookDemoModal` (src/unnamed/part_000): its local
  state, `handleSubmit`, the success auto-close timer, and `handleClose`,
  modelled as explicit event traces over a modal-state record;
- the scroll-driven camera driver `ArequipaScrollMap` (src/scripts/main.js):
  the `mapStates` table and `updateMapState`;
- the parallax layer driver (src/app/components/TerritoryLayers.tsx): the
  per-frame scroll-progress scalar, easing curve and per-layer styles.
-/

namespace Polisense

/-! ### Lead-capture modal: data model -/

/-- A Firestore field value as used by the payload in `handleSubmit`:
either a plain string or the `serverTimestamp()` sentinel. -/
inductive FieldValue where
  | str (s : String)
  | serverTimestamp
  deriving DecidableEq, Repr

/-- The local state of `BookDemoModal`: the five `useState` hooks
`email`, `company`, `isSubmitting`, `isSuccess`, `error`. -/
structure ModalState where
  email : String
  company : String
  isSubmitting : Bool
  isSuccess : Bool
  error : String
  deriving DecidableEq, Repr

/-- The initial hook values: all strings empty, all flags false. -/
def initialModalState : ModalState :=
  { email := "", company := "", isSubmitting := false, isSuccess := false, error := "" }

/-- Effects performed by the modal's handlers, in program order. `ε` is the
type of rejection values thrown by the outbound write. -/
inductive Ev (ε : Type) where
  | setEmail (v : String)
  | setCompany (v : String)
  | setIsSubmitting (b : Bool)
  | setIsSuccess (b : Bool)
  | setError (v : String)
  | addDoc (coll : String) (payload : List (String × FieldValue))
  | scheduleAutoClose (delayMs : Nat)
  | invokeOnClose
  | consoleError (msg : String) (e : ε)

/-- Apply one event to the modal state; non-state effects leave it unchanged. -/
def applyEv {ε : Type} (s : ModalState) : Ev ε → ModalState
  | Ev.setEmail v => { s with email := v }
  | Ev.setCompany v => { s with company := v }
  | Ev.setIsSubmitting b => { s with isSubmitting := b }
  | Ev.setIsSuccess b => { s with isSuccess := b }
  | Ev.setError v => { s with error := v }
  | _ => s

/-- Apply a trace of events left to right. -/
def applyEvents {ε : Type} (s : ModalState) (evs : List (Ev ε)) : ModalState :=
  evs.foldl applyEv s

/-- The document payload of the `addDoc` call in `handleSubmit`:
`{ email, company, timestamp: serverTimestamp(), status: 'pending' }`. -/
def demoRequestPayload (email company : String) : List (String × FieldValue) :=
  [("email", FieldValue.str email),
   ("company", FieldValue.str company),
   ("timestamp", FieldValue.serverTimestamp),
   ("status", FieldValue.str "pending")]

/-- Event trace of `handleSubmit`: clear the error, raise the submitting
flag, perform the single `addDoc` write; on acceptance (`outcome = none`)
set the success flag and schedule the 2000 ms auto-close; on rejection
(`outcome = some e`) log and set the fixed error message; finally lower
the submitting flag. -/
def handleSubmitEvents (ε : Type) (s : ModalState) (outcome : Option ε) : List (Ev ε) :=
  [Ev.setError "", Ev.setIsSubmitting true,
   Ev.addDoc "demo-requests" (demoRequestPayload s.email s.company)] ++
  (match outcome with
   | none => [Ev.setIsSuccess true, Ev.scheduleAutoClose 2000]
   | some e => [Ev.consoleError "Error submitting form:" e,
                Ev.setError "Failed to submit. Please try again."]) ++
  [Ev.setIsSubmitting false]

/-- Event trace of the `setTimeout` callback scheduled after a successful
submit: reset both fields, clear the success flag, call `onClose`. -/
def autoCloseEvents (ε : Type) : List (Ev ε) :=
  [Ev.setEmail "", Ev.setCompany "", Ev.setIsSuccess false, Ev.invokeOnClose]

/-- Event trace of `handleClose`: a no-op while `isSubmitting`, otherwise
reset both fields, clear the error and the success flag, call `onClose`. -/
def handleCloseEvents (ε : Type) (s : ModalState) : List (Ev ε) :=
  if s.isSubmitting then []
  else [Ev.setEmail "", Ev.setCompany "", Ev.setError "",
        Ev.setIsSuccess false, Ev.invokeOnClose]

/-- Number of outbound document-create calls in a trace. -/
def countAddDoc {ε : Type} (evs : List (Ev ε)) : Nat :=
  evs.countP (fun e => match e with | Ev.addDoc _ _ => true | _ => false)

/-- Whether a trace schedules the timed auto-close. -/
def schedulesAutoClose {ε : Type} (evs : List (Ev ε)) : Bool :=
  evs.any (fun e => match e with | Ev.scheduleAutoClose _ => true | _ => false)

/-- Whether a trace invokes the parent-supplied `onClose` callback. -/
def invokesOnClose {ε : Type} (evs : List (Ev ε)) : Bool :=
  evs.any (fun e => match e with | Ev.invokeOnClose => true | _ => false)

/-- Whether a trace writes to the `email` or `company` field. -/
def writesEmailOrCompany {ε : Type} (evs : List (Ev ε)) : Bool :=
  evs.any (fun e => match e with
    | Ev.setEmail _ => true
    | Ev.setCompany _ => true
    | _ => false)

/-- The modal's JSX shows the success screen exactly when `isSuccess`. -/
def showsSuccessScreen (s : ModalState) : Bool := s.isSuccess

/-- The modal's JSX shows the error box exactly when `error` is truthy,
i.e. a non-empty string. -/
def showsErrorBox (s : ModalState) : Bool := s.error != ""

/-! ### Firestore operations of the whole repository -/

/-- Kinds of document-store operations. -/
inductive FirestoreOp where
  | create (coll : String) (payload : List (String × FieldValue))
  | readOp (coll : String)
  | updateOp (coll : String)
  | deleteOp (coll : String)
  deriving DecidableEq, Repr

/-- Whether an operation is a document create. -/
def FirestoreOp.isCreate : FirestoreOp → Bool
  | FirestoreOp.create _ _ => true
  | _ => false

/-- Every Firestore operation appearing anywhere in the repository, as a
function of the form-field values: the single `addDoc` create in
`BookDemoModal.handleSubmit` (src/unnamed/part_000 line 28) is the only
`firebase/firestore` call site in the source tree. -/
def repoFirestoreOps (email company : String) : List FirestoreOp :=
  [FirestoreOp.create "demo-requests" (demoRequestPayload email company)]

/-! ### Scroll-driven camera driver (src/scripts/main.js) -/

/-- One entry of the `mapStates` table: center (longitude, latitude),
zoom, pitch, bearing and style URL. -/
structure MapCamera where
  lng : ℚ
  lat : ℚ
  zoom : ℚ
  pitch : ℚ
  bearing : ℚ
  style : String
  deriving DecidableEq, Repr

/-- The satellite-streets style URL used by the first four states. -/
def satelliteStyle : String := "mapbox://styles/mapbox/satellite-streets-v12"

/-- The standard style URL used by the `data` and `conclusion` states. -/
def standardStyle : String := "mapbox://styles/mapbox/standard"

/-- The `mapStates` table of `ArequipaScrollMap`: six named camera states,
each a literal tuple, and nothing else. -/
def mapStates (key : String) : Option MapCamera :=
  if key = "intro" then
    some { lng := 0, lat := 0, zoom := 3, pitch := 0, bearing := 0, style := satelliteStyle }
  else if key = "historical" then
    some { lng := -71.5375, lat := -16.4090, zoom := 6, pitch := 0, bearing := 0,
           style := satelliteStyle }
  else if key = "architectural" then
    some { lng := -71.5375, lat := -16.4090, zoom := 8, pitch := 15, bearing := 10,
           style := satelliteStyle }
  else if key = "cultural" then
    some { lng := -71.5375, lat := -16.4090, zoom := 9, pitch := 60, bearing := -30,
           style := satelliteStyle }
  else if key = "data" then
    some { lng := -71.537, lat := -16.399, zoom := 18, pitch := 60, bearing := 0,
           style := standardStyle }
  else if key = "conclusion" then
    some { lng := -71.537, lat := -16.399, zoom := 17, pitch := 60, bearing := 0,
           style := standardStyle }
  else none

/-- The six keys defined in the `mapStates` table. -/
def narrativeKeys : List String :=
  ["intro", "historical", "architectural", "cultural", "data", "conclusion"]

/-- The parts of the `ArequipaScrollMap` instance state read or written
by `updateMapState`: whether `this.map` is set, `this.isLoaded`,
`this.currentState` and `this.reducedMotion`. -/
structure ScrollMapState where
  hasMap : Bool
  isLoaded : Bool
  currentState : Option String
  reducedMotion : Bool
  deriving DecidableEq, Repr

/-- Calls `updateMapState` makes into the map library and its own helpers. -/
inductive MapEv where
  | setStyle (style : String)
  | easeTo (lng lat zoom pitch bearing : ℚ) (duration : Nat)
  | applyLighting (key : String)
  | configure3DBuildings
  deriving DecidableEq, Repr

/-- Whether a trace contains a camera push (`easeTo`). -/
def hasEaseTo (evs : List MapEv) : Bool :=
  evs.any (fun e => match e with | MapEv.easeTo _ _ _ _ _ _ => true | _ => false)

/-- `updateMapState stateKey`: returns unchanged with no calls when the map
is absent or not loaded, or when `stateKey` is not in the table; otherwise
pushes the style if it differs from the current style name, pushes the
camera tuple via `easeTo` unless transitioning from `data` to `conclusion`,
sets `currentState` to the key, schedules the lighting update, and
configures 3D buildings for the `data` and `conclusion` keys. -/
def updateMapState (st : ScrollMapState) (currentStyleName : String) (key : String) :
    ScrollMapState × List MapEv :=
  if st.hasMap && st.isLoaded then
    match mapStates key with
    | none => (st, [])
    | some ms =>
      let styleEvs := if currentStyleName ≠ ms.style then [MapEv.setStyle ms.style] else []
      let camEvs :=
        if st.currentState = some "data" ∧ key = "conclusion" then []
        else [MapEv.easeTo ms.lng ms.lat ms.zoom ms.pitch ms.bearing
                (if st.reducedMotion then 0 else 2000)]
      let bldgEvs := if key = "data" ∨ key = "conclusion" then [MapEv.configure3DBuildings]
                     else []
      ({ st with currentState := some key },
       styleEvs ++ camEvs ++ [MapEv.applyLighting key] ++ bldgEvs)
  else (st, [])

/-! ### Parallax layer driver (src/app/components/TerritoryLayers.tsx) -/

/-- The easing curve `t < 0.5 ? 2*t*t : -1 + (4 - 2*t)*t`. -/
def ease (t : ℚ) : ℚ := if t < 0.5 then 2 * t * t else -1 + (4 - 2 * t) * t

/-- The per-frame scroll-progress scalar:
`Math.max(0, Math.min(1, -rect.top / (rect.height - window.innerHeight)))`. -/
def scrollProgress (rectTop rectHeight innerHeight : ℚ) : ℚ :=
  max 0 (min 1 (-rectTop / (rectHeight - innerHeight)))

/-- The eased progress `ease(Math.min(scrollProgress / 0.80, 1))`. -/
def easedProgress (sp : ℚ) : ℚ := ease (min (sp / 0.80) 1)

/-- The style written to one layer element during a frame. -/
structure LayerStyle where
  translateZ : ℚ
  opacity : ℚ
  isOpen : Bool
  deriving DecidableEq, Repr

/-- One animation frame of the parallax driver: compute the single
scroll-progress scalar and derive each layer's style from it; layer `i`
gets `translateZ(i*120 + i*180*ep)`, `opacity` 1, and the `open` class
toggled by `i > 0 || ep > 0.10`. -/
def frame (rectTop rectHeight innerHeight : ℚ) (numLayers : Nat) : List LayerStyle :=
  let sp := scrollProgress rectTop rectHeight innerHeight
  let ep := easedProgress sp
  (List.range numLayers).map (fun (i : Nat) =>
    { translateZ := (i : ℚ) * 120 + (i : ℚ) * 180 * ep,
      opacity := 1,
      isOpen := decide (0 < i) || decide ((0.10 : ℚ) < ep) })

/-! ### Theorems -/

/-- C1: a submission whose outbound write is accepted performs exactly one
document-create call, leaves the modal showing the success state, schedules
the timed auto-close (and does not invoke `onClose` itself); the auto-close
then resets the email and company fields, clears the success flag, and
invokes the parent-supplied `onClose` callback. -/
theorem submit_accepted_one_write_success_autoclose (ε : Type) (s : ModalState) :
    countAddDoc (handleSubmitEvents ε s none) = 1 ∧
    showsSuccessScreen (applyEvents s (handleSubmitEvents ε s none)) = true ∧
    schedulesAutoClose (handleSubmitEvents ε s none) = true ∧
    invokesOnClose (handleSubmitEvents ε s none) = false ∧
    (applyEvents (applyEvents s (handleSubmitEvents ε s none)) (autoCloseEvents ε)).email
      = "" ∧
    (applyEvents (applyEvents s (handleSubmitEvents ε s none)) (autoCloseEvents ε)).company
      = "" ∧
    (applyEvents (applyEvents s (handleSubmitEvents ε s none)) (autoCloseEvents ε)).isSuccess
      = false ∧
    invokesOnClose (autoCloseEvents ε) = true :=
  ⟨rfl, rfl, rfl, rfl, rfl, rfl, rfl, rfl⟩

/-- C2: a submission whose outbound write is rejected performs exactly one
document-create call (no retry), leaves the modal showing the error box with
the fixed message, schedules no auto-close and invokes no close callback. -/
theorem submit_rejected_error_no_autoclose (ε : Type) (s : ModalState) (e : ε) :
    countAddDoc (handleSubmitEvents ε s (some e)) = 1 ∧
    showsErrorBox (applyEvents s (handleSubmitEvents ε s (some e))) = true ∧
    (applyEvents s (handleSubmitEvents ε s (some e))).error
      = "Failed to submit. Please try again." ∧
    schedulesAutoClose (handleSubmitEvents ε s (some e)) = false ∧
    invokesOnClose (handleSubmitEvents ε s (some e)) = false :=
  ⟨rfl, rfl, rfl, rfl, rfl⟩

/-- C3: the created record has exactly the fields email (as entered),
company (as entered), timestamp (server-assigned sentinel) and status with
fixed value `pending`; and every Firestore operation in the repository is
that single create, so nothing reads, updates or deletes such a record. -/
theorem demo_record_fields_and_create_only (email company : String) :
    (demoRequestPayload email company).map Prod.fst
      = ["email", "company", "timestamp", "status"] ∧
    demoRequestPayload email company
      = [("email", FieldValue.str email), ("company", FieldValue.str company),
         ("timestamp", FieldValue.serverTimestamp),
         ("status", FieldValue.str "pending")] ∧
    (repoFirestoreOps email company).all FirestoreOp.isCreate = true ∧
    repoFirestoreOps email company
      = [FirestoreOp.create "demo-requests" (demoRequestPayload email company)] :=
  ⟨rfl, rfl, rfl, rfl⟩

/-- C6: whenever `handleClose` actually closes the modal (invokes `onClose`),
its trace is exactly the four field resets followed by the `onClose` call
(so the resets happen before `onClose`), and the resulting state has empty
email, company and error and a cleared success flag. -/
theorem close_resets_fields_before_onClose (ε : Type) (s : ModalState)
    (h : invokesOnClose (handleCloseEvents ε s) = true) :
    handleCloseEvents ε s
      = [Ev.setEmail "", Ev.setCompany "", Ev.setError "", Ev.setIsSuccess false,
         Ev.invokeOnClose] ∧
    applyEvents s (handleCloseEvents ε s)
      = { email := "", company := "", isSubmitting := s.isSubmitting,
          isSuccess := false, error := "" } := by
  cases hs : s.isSubmitting with
  | true => simp [handleCloseEvents, hs, invokesOnClose] at h
  | false =>
    constructor
    · simp [handleCloseEvents, hs]
    · simp [handleCloseEvents, hs, applyEvents, applyEv]

/-- Witness for C6 at the initial modal state. -/
theorem close_resets_fields_before_onClose_witness :
    invokesOnClose (handleCloseEvents Unit initialModalState) = true ∧
    (handleCloseEvents Unit initialModalState
      = [Ev.setEmail "", Ev.setCompany "", Ev.setError "", Ev.setIsSuccess false,
         Ev.invokeOnClose] ∧
     applyEvents initialModalState (handleCloseEvents Unit initialModalState)
      = { email := "", company := "", isSubmitting := initialModalState.isSubmitting,
          isSuccess := false, error := "" }) :=
  ⟨rfl, close_resets_fields_before_onClose Unit initialModalState rfl⟩

/-- C7: the error message surfaced for a rejected write is the single fixed
string, identical for any two rejection values of any type. -/
theorem rejected_error_message_uniform (ε : Type) (s : ModalState) (e1 e2 : ε) :
    (applyEvents s (handleSubmitEvents ε s (some e1))).error
      = "Failed to submit. Please try again." ∧
    (applyEvents s (handleSubmitEvents ε s (some e1))).error
      = (applyEvents s (handleSubmitEvents ε s (some e2))).error :=
  ⟨rfl, rfl⟩

/-- C9: the failure branch leaves the entered email and company unchanged
(the trace never writes those fields), touching only the error message and
the submitting flag. -/
theorem rejected_preserves_input (ε : Type) (s : ModalState) (e : ε) :
    (applyEvents s (handleSubmitEvents ε s (some e))).email = s.email ∧
    (applyEvents s (handleSubmitEvents ε s (some e))).company = s.company ∧
    (applyEvents s (handleSubmitEvents ε s (some e))).isSuccess = s.isSuccess ∧
    (applyEvents s (handleSubmitEvents ε s (some e))).error
      = "Failed to submit. Please try again." ∧
    (applyEvents s (handleSubmitEvents ε s (some e))).isSubmitting = false ∧
    writesEmailOrCompany (handleSubmitEvents ε s (some e)) = false :=
  ⟨rfl, rfl, rfl, rfl, rfl, rfl⟩

/-- C10: while a submission is in flight, `handleClose` is a no-op: its
trace is empty, the state is unchanged and `onClose` is not invoked. -/
theorem no_close_while_submitting (ε : Type) (s : ModalState)
    (h : s.isSubmitting = true) :
    handleCloseEvents ε s = [] ∧
    applyEvents s (handleCloseEvents ε s) = s ∧
    invokesOnClose (handleCloseEvents ε s) = false := by
  refine ⟨?_, ?_, ?_⟩ <;> simp [handleCloseEvents, h, applyEvents, invokesOnClose]

/-- Witness for C10 at a concrete in-flight state. -/
theorem no_close_while_submitting_witness :
    (ModalState.mk "a@b.c" "Acme" true false "").isSubmitting = true ∧
    (handleCloseEvents Unit (ModalState.mk "a@b.c" "Acme" true false "") = [] ∧
     applyEvents (ModalState.mk "a@b.c" "Acme" true false "")
         (handleCloseEvents Unit (ModalState.mk "a@b.c" "Acme" true false ""))
       = ModalState.mk "a@b.c" "Acme" true false "" ∧
     invokesOnClose (handleCloseEvents Unit (ModalState.mk "a@b.c" "Acme" true false ""))
       = false) :=
  ⟨rfl, no_close_while_submitting Unit (ModalState.mk "a@b.c" "Acme" true false "") rfl⟩

/-- C4: the camera table maps the six narrative keys to their fixed literal
tuples, and for any key outside that set `updateMapState` performs no call
and leaves the whole driver state (including `currentState`) unchanged. -/
theorem camera_table_six_keys_only (st : ScrollMapState) (styleName key : String)
    (h : key ∉ narrativeKeys) :
    narrativeKeys.map mapStates
      = [some { lng := 0, lat := 0, zoom := 3, pitch := 0, bearing := 0,
                style := satelliteStyle },
         some { lng := -71.5375, lat := -16.4090, zoom := 6, pitch := 0, bearing := 0,
                style := satelliteStyle },
         some { lng := -71.5375, lat := -16.4090, zoom := 8, pitch := 15, bearing := 10,
                style := satelliteStyle },
         some { lng := -71.5375, lat := -16.4090, zoom := 9, pitch := 60, bearing := -30,
                style := satelliteStyle },
         some { lng := -71.537, lat := -16.399, zoom := 18, pitch := 60, bearing := 0,
                style := standardStyle },
         some { lng := -71.537, lat := -16.399, zoom := 17, pitch := 60, bearing := 0,
                style := standardStyle }] ∧
    mapStates key = none ∧
    updateMapState st styleName key = (st, []) := by
  simp only [narrativeKeys, List.mem_cons, List.not_mem_nil, or_false, not_or] at h
  obtain ⟨h1, h2, h3, h4, h5, h6⟩ := h
  have hnone : mapStates key = none := by
    simp [mapStates, h1, h2, h3, h4, h5, h6]
  refine ⟨rfl, hnone, ?_⟩
  simp [updateMapState, hnone]

/-- Witness for C4 at the key `bogus`. -/
theorem camera_table_six_keys_only_witness :
    "bogus" ∉ narrativeKeys ∧
    (narrativeKeys.map mapStates
      = [some { lng := 0, lat := 0, zoom := 3, pitch := 0, bearing := 0,
                style := satelliteStyle },
         some { lng := -71.5375, lat := -16.4090, zoom := 6, pitch := 0, bearing := 0,
                style := satelliteStyle },
         some { lng := -71.5375, lat := -16.4090, zoom := 8, pitch := 15, bearing := 10,
                style := satelliteStyle },
         some { lng := -71.5375, lat := -16.4090, zoom := 9, pitch := 60, bearing := -30,
                style := satelliteStyle },
         some { lng := -71.537, lat := -16.399, zoom := 18, pitch := 60, bearing := 0,
                style := standardStyle },
         some { lng := -71.537, lat := -16.399, zoom := 17, pitch := 60, bearing := 0,
                style := standardStyle }] ∧
     mapStates "bogus" = none ∧
     updateMapState (ScrollMapState.mk true true none false) "s" "bogus"
       = (ScrollMapState.mk true true none false, [])) :=
  ⟨by decide,
   camera_table_six_keys_only (ScrollMapState.mk true true none false) "s" "bogus"
     (by decide)⟩

/-- C5 counterexample: with the map present and loaded, the key
`conclusion` in the table, and the current state `data`, `updateMapState`
performs no camera push at all, contradicting the claim that every in-view
panel's key gets its parameter set pushed. -/
theorem camera_push_skipped_data_to_conclusion :
    (ScrollMapState.mk true true (some "data") false).hasMap = true ∧
    (ScrollMapState.mk true true (some "data") false).isLoaded = true ∧
    (mapStates "conclusion").isSome = true ∧
    hasEaseTo
        (updateMapState (ScrollMapState.mk true true (some "data") false)
          standardStyle "conclusion").2
      = false :=
  ⟨rfl, rfl, rfl, rfl⟩

/-- C5 amended: with the map present and loaded and the key in the table,
`updateMapState` pushes that key's camera tuple via `easeTo` except on the
`data` to `conclusion` transition, where the view is deliberately kept. -/
theorem camera_push_for_in_view_panel (st : ScrollMapState) (styleName key : String)
    (ms : MapCamera) (h1 : st.hasMap = true) (h2 : st.isLoaded = true)
    (h3 : mapStates key = some ms)
    (h4 : ¬ (st.currentState = some "data" ∧ key = "conclusion")) :
    MapEv.easeTo ms.lng ms.lat ms.zoom ms.pitch ms.bearing
        (if st.reducedMotion then 0 else 2000)
      ∈ (updateMapState st styleName key).2 := by
  simp only [updateMapState, h1, h2, h3, Bool.and_self, if_true]
  rw [if_neg h4]
  simp [List.mem_append]

/-- Witness for the amended C5 at the key `intro`. -/
theorem camera_push_for_in_view_panel_witness :
    ((ScrollMapState.mk true true none false).hasMap = true ∧
     (ScrollMapState.mk true true none false).isLoaded = true ∧
     mapStates "intro"
       = some { lng := 0, lat := 0, zoom := 3, pitch := 0, bearing := 0,
                style := satelliteStyle } ∧
     ¬ ((ScrollMapState.mk true true none false).currentState = some "data" ∧
        "intro" = "conclusion")) ∧
    MapEv.easeTo 0 0 3 0 0
        (if (ScrollMapState.mk true true none false).reducedMotion then 0 else 2000)
      ∈ (updateMapState (ScrollMapState.mk true true none false) "s" "intro").2 :=
  ⟨⟨rfl, rfl, rfl, by decide⟩,
   camera_push_for_in_view_panel (ScrollMapState.mk true true none false) "s" "intro"
     { lng := 0, lat := 0, zoom := 3, pitch := 0, bearing := 0, style := satelliteStyle }
     rfl rfl rfl (by decide)⟩

/-- C8: each animation frame derives everything from the single
scroll-progress scalar, which is clamped to `[0, 1]`; layer `i` gets
`translateZ` equal to `120*i + 180*i*ease(min(progress/0.80, 1))` and
opacity 1. -/
theorem parallax_frame_single_scalar (rectTop rectHeight innerHeight : ℚ) (n i : Nat)
    (h : i < (frame rectTop rectHeight innerHeight n).length) :
    0 ≤ scrollProgress rectTop rectHeight innerHeight ∧
    scrollProgress rectTop rectHeight innerHeight ≤ 1 ∧
    (frame rectTop rectHeight innerHeight n).length = n ∧
    ((frame rectTop rectHeight innerHeight n).get ⟨i, h⟩).translateZ
      = 120 * (i : ℚ) + 180 * (i : ℚ)
          * ease (min (scrollProgress rectTop rectHeight innerHeight / 0.80) 1) ∧
    ((frame rectTop rectHeight innerHeight n).get ⟨i, h⟩).opacity = 1 := by
  refine ⟨le_max_left 0 _, max_le (by norm_num) (min_le_left 1 _),
    by simp only [frame, List.length_map, List.length_range], ?_, ?_⟩
  · simp only [frame, List.get_eq_getElem] at h ⊢
    rw [List.getElem_map]
    simp only [List.getElem_range, easedProgress]
    ring
  · simp only [frame, List.get_eq_getElem] at h ⊢
    rw [List.getElem_map]

/-- Witness for C8 at concrete geometry with five layers, layer index 2. -/
theorem parallax_frame_single_scalar_witness :
    2 < (frame (-1) 3 1 5).length ∧
    (0 ≤ scrollProgress (-1) 3 1 ∧
     scrollProgress (-1) 3 1 ≤ 1 ∧
     (frame (-1) 3 1 5).length = 5 ∧
     ((frame (-1) 3 1 5).get ⟨2, by decide⟩).translateZ
       = 120 * (2 : ℚ) + 180 * (2 : ℚ)
           * ease (min (scrollProgress (-1) 3 1 / 0.80) 1) ∧
     ((frame (-1) 3 1 5).get ⟨2, by decide⟩).opacity = 1) :=
  ⟨by decide, parallax_frame_single_scalar (-1) 3 1 5 2 (by decide)⟩

end Polisense
